import Mathlib

/-!
Shallow embedding of the yt-dlp-hq orchestration pipeline (src/main.ts).

The TypeScript source consists of two concatenated variants of the same
program.  Claims C1..C9 refer to the first variant (lines 1..491); C10
compares the merge call sites of the two variants.

Modelling conventions:
* External process invocations (`new Deno.Command(cmd, { args }).output()`)
  are mediated by an oracle `Env.exec : Spawn → Option CmdResult`;
  `none` models the spawn itself throwing (executable not found), while
  `some r` carries the exit code and the captured stdout/stderr text.
* Every embedded function returns the list of spawns it attempted (its
  trace), in order, alongside its value.  Console output is modelled (as a
  `List String` log) only where a claim refers to it: in `runYtDlpCommand`
  and `installFfmpeg`.
* Thrown JavaScript exceptions are modelled as `Except.error`; a
  try/catch that swallows an error turns the `Except.error` of the callee
  back into a normal return, exactly where the source does.
* The filesystem is a list of existing path names; `Deno.remove` on an
  absent path rejects, which the embedding models as `Except.error`.
  Removal deletes the path from the list.
* `Deno.exit` is never called by the source.  The process exit code is 0
  when `main`'s promise resolves; an error thrown before the try block of
  `main` rejects the (un-awaited) promise, and Deno terminates with exit
  code 1 on an unhandled rejection.  `mainExitCode` captures exactly this.
-/

namespace YtDlpHq

/-- One attempted external process invocation: executable name and argv. -/
structure Spawn where
  cmd : String
  args : List String
deriving DecidableEq, Repr

/-- Outcome of a spawned process that did start: exit code and captured output. -/
structure CmdResult where
  code : Nat
  stdout : String
  stderr : String
deriving DecidableEq, Repr

/-- The external world of one run: host OS tag (`Deno.build.os`), the process
oracle, `Deno.stat` existence oracle, whether the yt-dlp binary fetch
succeeds, and the set of files present when the merge stage starts. -/
structure Env where
  os : String
  exec : Spawn → Option CmdResult
  statExists : String → Bool
  fetchOk : Bool
  fs0 : List String

/-- Constant `AUDIO_ID` of src/main.ts line 8. -/
def AUDIO_ID : Nat := 140

/-- Constant `VIDEO_ID` of src/main.ts line 9. -/
def VIDEO_ID : Nat := 609

/-- Boolean test: does the list start with the given needle list. -/
def listStartsWith : List Char → List Char → Bool
  | _, [] => true
  | [], _ :: _ => false
  | c :: cs, d :: ds => c == d && listStartsWith cs ds

/-- Boolean substring containment on character lists (JavaScript
`String.prototype.includes`). -/
def listContainsSub : List Char → List Char → Bool
  | [], needle => needle.isEmpty
  | c :: cs, needle => listStartsWith (c :: cs) needle || listContainsSub cs needle

/-- JavaScript `hay.includes(needle)`. -/
def substrContains (hay needle : String) : Bool :=
  listContainsSub hay.data needle.data

/-- JavaScript `String.prototype.toLowerCase` (ASCII fidelity suffices here). -/
def toLowerStr (s : String) : String :=
  String.mk (s.data.map Char.toLower)

/-- The whitespace class of the JavaScript regular-expression escape `\s`. -/
def isJsWhitespace (c : Char) : Bool :=
  c == ' ' || c == '\t' || c == '\n' || c == '\r' ||
  c == '\x0b' || c == '\x0c' || c == ' ' ||
  (0x1680 == c.toNat) || (0x2000 ≤ c.toNat && c.toNat ≤ 0x200a) ||
  (0x2028 == c.toNat) || (0x2029 == c.toNat) || (0x202f == c.toNat) ||
  (0x205f == c.toNat) || (0x3000 == c.toNat) || (0xfeff == c.toNat)

/-- JavaScript `namePart.replace(/\s+/g, "_")` (src/main.ts line 149): every
maximal run of whitespace becomes one underscore.  The boolean flag records
whether the previous character was part of a whitespace run. -/
def collapseWsAux : Bool → List Char → List Char
  | _, [] => []
  | prevWs, c :: rest =>
    if isJsWhitespace c then
      (if prevWs then [] else ['_']) ++ collapseWsAux true rest
    else
      c :: collapseWsAux false rest

/-- Index of the first occurrence of a period in a character list. -/
def findDotRev : List Char → Option Nat
  | [] => none
  | c :: rest => if c == '.' then some 0 else (findDotRev rest).map (· + 1)

/-- JavaScript `filename.split(/\.(?=[^.]+$)/)[0]` (src/main.ts line 146):
the regular expression matches the last period of the string provided at
least one character follows it (those characters are automatically free of
periods); the name part is everything before that period, or the whole
string when there is no such period.  Working on the reversed list, the
first period found is the last period of the string, and the index `k` is
the number of characters after it. -/
def stripExtChars (cs : List Char) : List Char :=
  match findDotRev cs.reverse with
  | none => cs
  | some k => if k = 0 then cs else (cs.reverse.drop (k + 1)).reverse

/-- Function `processFilename` of src/main.ts lines 144-152. -/
def processFilename (s : String) : String :=
  String.mk (collapseWsAux false (stripExtChars s.data))

/-- The singleton audio identifier set induced by `AUDIO_ID`. -/
def audioIdSet : List Nat := [AUDIO_ID]

/-- The singleton video identifier set induced by `VIDEO_ID`. -/
def videoIdSet : List Nat := [VIDEO_ID]

/-- The error message of the invalid-format throw, src/main.ts line 173
(template `Invalid input. Enter  ${AUDIO_ID} (audio) or ${VIDEO_ID} (video)`,
with its double space). -/
def invalidFormatMessage : String :=
  "Invalid input. Enter  " ++ toString AUDIO_ID ++ " (audio) or " ++
    toString VIDEO_ID ++ " (video)"

/-- The format classification performed by the conditional chain of
src/main.ts lines 167-175: `AUDIO_ID` maps to mode audio / extension m4a,
`VIDEO_ID` to mode video / extension mp4, anything else throws. -/
def classifyFormat (input : Nat) : Except String (String × String) :=
  if input = AUDIO_ID then Except.ok ("audio", "m4a")
  else if input = VIDEO_ID then Except.ok ("video", "mp4")
  else Except.error invalidFormatMessage

/-- The platform path separator chosen at src/main.ts line 98. -/
def pathSep (os : String) : String :=
  if os = "windows" then ";" else ":"

/-- Function `updatePath` of src/main.ts lines 92-102, as a function of the OS tag,
the current directory and the previous value of the PATH variable
(`path.includes(currentDir)` guards the mutation). -/
def updatePath (os currentDir path : String) : String :=
  if substrContains path currentDir then path
  else currentDir ++ pathSep os ++ path

/-- The probe invocation of `checkPackageInstalled`, src/main.ts line 17:
the package name run with a single `--help` argument. -/
def probeSpawn (packageName : String) : Spawn :=
  ⟨packageName, ["--help"]⟩

/-- Function `checkPackageInstalled` of src/main.ts lines 16-24: true exactly when
the probe spawn starts and exits 0; a thrown spawn is caught and yields
false. -/
def checkPackageInstalled (env : Env) (packageName : String) :
    List Spawn × Bool :=
  match env.exec (probeSpawn packageName) with
  | none => ([probeSpawn packageName], false)
  | some r => ([probeSpawn packageName], r.code == 0)

/-- Function `getYtDlpCommand` of src/main.ts lines 112-127.  When the tool is
already installed no OS validation happens; otherwise an unsupported OS
throws. -/
def getYtDlpCommand (os : String) (isInstalled : Bool) : Except String String :=
  if isInstalled then
    Except.ok (if os = "windows" then "yt-dlp.exe" else "yt-dlp")
  else if os = "windows" then Except.ok "yt-dlp.exe"
  else if os = "darwin" then Except.ok "yt-dlp_macos"
  else if os = "linux" then Except.ok "yt-dlp_linux"
  else Except.error ("Unsupported OS: " ++ os)

/-- Function `downloadYtDlp` of src/main.ts lines 72-86.  `getYtDlpUrl` throws for an
unsupported OS; `Env.fetchOk` abstracts the network fetch together with the
local write/chmod succeeding (a failed fetch throws). -/
def downloadYtDlp (env : Env) : Except String Unit :=
  if env.os = "windows" ∨ env.os = "linux" ∨ env.os = "darwin" then
    if env.fetchOk then Except.ok () else Except.error "Failed to download yt-dlp"
  else Except.error ("Unsupported OS: " ++ env.os)

/-- The download invocation built at src/main.ts lines 178-180:
`<tool> -f <id> <url> -o my_<mode>.<ext>`. -/
def runSpawn (ytDlpCommand url : String) (input : Nat) (mode ext : String) :
    Spawn :=
  ⟨ytDlpCommand, ["-f", toString input, url, "-o", "my_" ++ mode ++ "." ++ ext]⟩

/-- Function `runYtDlpCommand` of src/main.ts lines 161-192.  The classification
throw happens before any spawn.  A non-zero exit code only logs the error
banner and the decoded stderr and then resolves normally — there is no
re-invocation of any kind and no thrown error on download failure. -/
def runYtDlpCommand (env : Env) (url : String) (input : Nat)
    (ytDlpCommand : String) : List Spawn × List String × Except String Unit :=
  match classifyFormat input with
  | Except.error msg => ([], [], Except.error msg)
  | Except.ok (mode, ext) =>
    let sp := runSpawn ytDlpCommand url input mode ext
    let dlLog := "Downloading " ++ mode ++ "..."
    match env.exec sp with
    | none => ([sp], [dlLog], Except.error "spawn failed")
    | some r =>
      if r.code = 0 then
        ([sp], [dlLog, "Download completed successfully!"], Except.ok ())
      else
        ([sp],
         [dlLog, "runYtDlpCommand(): An error occurred during download: ",
          r.stderr],
         Except.ok ())

/-- Function `getUnixDistroType` of src/main.ts lines 198-242: `cat /etc/os-release`,
keyword sniffing on its lowercased stdout, then distribution marker files,
then the darwin fallback, then "unknown".  A thrown `cat` spawn is caught by
the surrounding try/catch and yields "unknown" directly. -/
def getUnixDistroType (env : Env) : List Spawn × String :=
  let sp : Spawn := ⟨"cat", ["/etc/os-release"]⟩
  match env.exec sp with
  | none => ([sp], "unknown")
  | some r =>
    ([sp],
      if r.code = 0 &&
          (substrContains (toLowerStr r.stdout) "debian" ||
           substrContains (toLowerStr r.stdout) "ubuntu") then "debian"
      else if r.code = 0 &&
          (substrContains (toLowerStr r.stdout) "rhel" ||
           substrContains (toLowerStr r.stdout) "fedora" ||
           substrContains (toLowerStr r.stdout) "centos") then "rhel"
      else if env.statExists "/etc/debian_version" then "debian"
      else if env.statExists "/etc/redhat-release" then "rhel"
      else if env.os = "darwin" then "darwin"
      else "unknown")

/-- Function `installFromPackageManager` of src/main.ts lines 250-302.  `cmd` is
"sudo" for every distribution except darwin, where it is "brew"; the
package-manager name and refresh subcommand are then passed as the argv,
so the darwin invocations are `brew brew update` and
`brew brew install -y <pkg>`.  The throw for an unknown distribution
happens before the try block and therefore propagates; everything inside
the try that fails is caught and returns false. -/
def installFromPackageManager (env : Env) (distro packageName : String) :
    List Spawn × Except String Bool :=
  let pm : String × String :=
    if distro = "debian" then ("apt", "update")
    else if distro = "rhel" then ("dnf", "check-update")
    else if distro = "darwin" then ("brew", "update")
    else ("unknown", "unknown")
  let cmd : String := if distro = "darwin" then "brew" else "sudo"
  if pm.1 = "unknown" then ([], Except.error "Unsupported Linux distribution")
  else
    let sp1 : Spawn := ⟨cmd, [pm.1, pm.2]⟩
    match env.exec sp1 with
    | none => ([sp1], Except.ok false)
    | some r1 =>
      if r1.stdout.length = 0 then ([sp1], Except.ok false)
      else
        let sp2 : Spawn := ⟨cmd, [pm.1, "install", "-y", packageName]⟩
        match env.exec sp2 with
        | none => ([sp1, sp2], Except.ok false)
        | some r2 => ([sp1, sp2], Except.ok (r2.code == 0))

/-- Function `installFfmpeg` of src/main.ts lines 310-341.  The Windows branch logs
its guidance and throws, but the throw is inside the function's own
try/catch, so it is swallowed and the function returns false.  The log
component records the console lines emitted by this function itself. -/
def installFfmpeg (env : Env) : List Spawn × List String × Bool :=
  let t0d := getUnixDistroType env
  let t0 := t0d.1
  let distro := t0d.2
  if env.os = "linux" then
    if distro = "debian" then
      match installFromPackageManager env distro "ffmpeg" with
      | (t1, Except.ok b) => (t0 ++ t1, [], b)
      | (t1, Except.error _) =>
        (t0 ++ t1, ["Error during FFmpeg installation:"], false)
    else if distro = "rhel" then
      match installFromPackageManager env distro "ffmpeg-free" with
      | (t1, Except.ok b) => (t0 ++ t1, [], b)
      | (t1, Except.error _) =>
        (t0 ++ t1, ["Error during FFmpeg installation:"], false)
    else (t0, [], false)
  else if env.os = "darwin" then
    match installFromPackageManager env distro "ffmpeg" with
    | (t1, Except.ok b) => (t0 ++ t1, [], b)
    | (t1, Except.error _) =>
      (t0 ++ t1, ["Error during FFmpeg installation:"], false)
  else if env.os = "windows" then
    (t0,
     ["Please install FFmpeg manually on Windows.",
      "Visit https://ffmpeg.org/download.html for instructions.",
      "Error during FFmpeg installation:"],
     false)
  else (t0, [], false)

/-- Removal of one path from the filesystem set. -/
def removePath (fs : List String) (p : String) : List String :=
  fs.filter (fun q => q != p)

/-- The temp-file removal step of `mergeAndCleanup`, src/main.ts lines
422-426: `Promise.all([Deno.remove("my_video.mp4"), Deno.remove("my_audio.m4a")])`.
Both removals are started concurrently, so both files are removed when
present even if the aggregate rejects; the aggregate rejects (NotFound)
when either file is absent, and the rejection is rethrown by the
surrounding catch. -/
def cleanupTempFiles (fs : List String) : List String × Except String Unit :=
  let fs1 := removePath (removePath fs "my_video.mp4") "my_audio.m4a"
  if fs.contains "my_video.mp4" && fs.contains "my_audio.m4a" then
    (fs1, Except.ok ())
  else (fs1, Except.error "NotFound")

/-- The title-derivation invocation of src/main.ts lines 381-383:
`<ytDlpCommand> --print filename <url>`. -/
def titleSpawn (url ytDlpCommand : String) : Spawn :=
  ⟨ytDlpCommand, ["--print", "filename", url]⟩

/-- JavaScript `String.prototype.trim`: strip leading and trailing
whitespace. -/
def jsTrim (s : String) : String :=
  String.mk
    (((s.data.dropWhile isJsWhitespace).reverse.dropWhile isJsWhitespace).reverse)

/-- The title computed at src/main.ts lines 384-388: the decoded stdout on
success, else the decoded stderr, trimmed and passed to `processFilename`. -/
def mergeTitleOf (r : CmdResult) : String :=
  processFilename (jsTrim (if r.code = 0 then r.stdout else r.stderr))

/-- The ffmpeg invocation of src/main.ts lines 391-405. -/
def ffmpegSpawn (videoTitle : String) : Spawn :=
  ⟨"ffmpeg",
   ["-i", "my_video.mp4", "-i", "my_audio.m4a", "-c:v", "copy", "-c:a",
    "aac", "-strict", "experimental", videoTitle ++ ".mp4"]⟩

/-- Function `mergeAndCleanup` of src/main.ts lines 375-440 (first variant): derive
the title, run ffmpeg, throw on non-zero ffmpeg exit, otherwise remove the
two temp inputs.  Every error is caught, logged and rethrown, so the
result is `Except.error` on any failure, including a NotFound rejection of
the removal step.  Returns (trace, resulting filesystem, result). -/
def mergeAndCleanup (env : Env) (fs : List String) (url ytDlpCommand : String) :
    List Spawn × List String × Except String Unit :=
  let spT := titleSpawn url ytDlpCommand
  match env.exec spT with
  | none => ([spT], fs, Except.error "spawn failed")
  | some rT =>
    let spF := ffmpegSpawn (mergeTitleOf rT)
    match env.exec spF with
    | none => ([spT, spF], fs, Except.error "spawn failed")
    | some rF =>
      if rF.code = 0 then
        let c := cleanupTempFiles fs
        ([spT, spF], c.1, c.2)
      else
        ([spT, spF], fs,
         Except.error ("FFmpeg process failed with code " ++ toString rF.code))

deriving instance DecidableEq for Except

/-- Full outcome of one run of the first variant's `main`: attempted spawns,
modelled console lines, resulting filesystem, and whether `main`'s promise
resolved (`Except.ok`) or rejected (`Except.error`). -/
structure RunOut where
  trace : List Spawn
  log : List String
  fs : List String
  result : Except String Unit
deriving DecidableEq, Repr

/-- Function `main` of src/main.ts lines 448-487 (first variant).  Both probes run
first; `getYtDlpCommand` and `downloadYtDlp` throw outside the try block
(rejecting `main`'s promise); `installFfmpeg` never throws and its boolean
is ignored.  Inside the try block, each stage runs in sequence; an error
thrown by a stage is caught by the catch at lines 480-486, which only
logs, so `main` still resolves.  A download whose process merely exits
non-zero is not an error at all and the pipeline continues.  The PATH
mutation of `updatePath` has no observable effect on this model and is not
threaded here (it is analysed separately). -/
def main (env : Env) (url : String) : RunOut :=
  let c1 := checkPackageInstalled env "yt-dlp"
  let c2 := checkPackageInstalled env "ffmpeg"
  let t1 := c1.1
  let isYtdlpInstalled := c1.2
  let t2 := c2.1
  let isFfmpegInstalled := c2.2
  match getYtDlpCommand env.os isYtdlpInstalled with
  | Except.error e => ⟨t1 ++ t2, [], env.fs0, Except.error e⟩
  | Except.ok ytDlpCommand =>
    match (if isYtdlpInstalled then Except.ok () else downloadYtDlp env) with
    | Except.error e => ⟨t1 ++ t2, [], env.fs0, Except.error e⟩
    | Except.ok _ =>
      let inst := if isFfmpegInstalled then ([], [], true) else installFfmpeg env
      let t3 := inst.1
      let log3 := inst.2.1
      let a := runYtDlpCommand env url AUDIO_ID ytDlpCommand
      let t4 := a.1
      let log4 := a.2.1
      match a.2.2 with
      | Except.error _ =>
        ⟨t1 ++ t2 ++ t3 ++ t4, log3 ++ log4, env.fs0, Except.ok ()⟩
      | Except.ok _ =>
        let v := runYtDlpCommand env url VIDEO_ID ytDlpCommand
        let t5 := v.1
        let log5 := v.2.1
        match v.2.2 with
        | Except.error _ =>
          ⟨t1 ++ t2 ++ t3 ++ t4 ++ t5, log3 ++ log4 ++ log5, env.fs0,
           Except.ok ()⟩
        | Except.ok _ =>
          let m := mergeAndCleanup env env.fs0 url ytDlpCommand
          ⟨t1 ++ t2 ++ t3 ++ t4 ++ t5 ++ m.1, log3 ++ log4 ++ log5, m.2.1,
           Except.ok ()⟩

/-- The process exit code of one run: 0 when `main`'s promise resolves,
1 when it rejects (Deno terminates with exit code 1 on an unhandled
rejection; the source never calls `Deno.exit`). -/
def mainExitCode (env : Env) (url : String) : Nat :=
  match (main env url).result with
  | Except.ok _ => 0
  | Except.error _ => 1

/-- The listing-mode invocation the specification describes
(`<tool> -F <sourceURL>`); it never occurs in the source. -/
def listingSpawn (ytDlpCommand url : String) : Spawn :=
  ⟨ytDlpCommand, ["-F", url]⟩

/-- The merge call site of the first variant's `main`, src/main.ts line 479:
`mergeAndCleanup(url, ytDlpCommand)`, matching the parameter order. -/
def mergeCallVariant1 (env : Env) (fs : List String) (url ytDlpCommand : String) :
    List Spawn × List String × Except String Unit :=
  mergeAndCleanup env fs url ytDlpCommand

/-- The merge call site of the second variant's `main`, src/main.ts line
807: `mergeAndCleanup(ytDlpCommand, url)` — the two arguments are swapped,
so the function's `url` parameter receives the tool command and its
`ytDlpCommand` parameter receives the source URL.  (The second variant's
`mergeAndCleanup` body, lines 714-775, builds the same commands as the
first variant's.) -/
def mergeCallVariant2 (env : Env) (fs : List String) (url ytDlpCommand : String) :
    List Spawn × List String × Except String Unit :=
  mergeAndCleanup env fs ytDlpCommand url

/-- Build a process oracle from an association table; spawns outside the
table throw. -/
def execOfTable (tbl : List (Spawn × CmdResult)) : Spawn → Option CmdResult :=
  fun sp => (tbl.find? (fun e => e.1 == sp)).map (fun e => e.2)

/-- Scenario for C1: everything installed, audio download succeeds, the
video download exits 1 with the format-unavailable message on stderr, the
merge then fails because my_video.mp4 is missing. -/
def envC1 : Env where
  os := "linux"
  exec := execOfTable
    [(probeSpawn "yt-dlp", ⟨0, "", ""⟩),
     (probeSpawn "ffmpeg", ⟨0, "", ""⟩),
     (⟨"yt-dlp", ["-f", "140", "URL1", "-o", "my_audio.m4a"]⟩, ⟨0, "", ""⟩),
     (⟨"yt-dlp", ["-f", "609", "URL1", "-o", "my_video.mp4"]⟩,
      ⟨1, "", "ERROR: Requested format is not available"⟩),
     (titleSpawn "URL1" "yt-dlp", ⟨0, "My Video.mp4", ""⟩),
     (ffmpegSpawn "My_Video", ⟨1, "", "my_video.mp4: No such file or directory"⟩)]
  statExists := fun _ => false
  fetchOk := true
  fs0 := ["my_audio.m4a"]

/-- Scenario for C2: as envC1 but the video download fails with an
unrelated error message. -/
def envC2 : Env where
  os := "linux"
  exec := execOfTable
    [(probeSpawn "yt-dlp", ⟨0, "", ""⟩),
     (probeSpawn "ffmpeg", ⟨0, "", ""⟩),
     (⟨"yt-dlp", ["-f", "140", "URL2", "-o", "my_audio.m4a"]⟩, ⟨0, "", ""⟩),
     (⟨"yt-dlp", ["-f", "609", "URL2", "-o", "my_video.mp4"]⟩,
      ⟨1, "", "ERROR: unable to download video data: timed out"⟩),
     (titleSpawn "URL2" "yt-dlp", ⟨0, "My Video.mp4", ""⟩),
     (ffmpegSpawn "My_Video", ⟨1, "", "my_video.mp4: No such file or directory"⟩)]
  statExists := fun _ => false
  fetchOk := true
  fs0 := ["my_audio.m4a"]

/-- Scenario for C3: title derivation and ffmpeg both succeed, so the
removal step runs. -/
def envC3 : Env where
  os := "linux"
  exec := execOfTable
    [(titleSpawn "URL3" "yt-dlp", ⟨0, "t.mp4", ""⟩),
     (ffmpegSpawn "t", ⟨0, "", ""⟩)]
  statExists := fun _ => false
  fetchOk := true
  fs0 := []

/-- Scenario for C4: both downloads succeed, the merge fails. -/
def envC4 : Env where
  os := "linux"
  exec := execOfTable
    [(probeSpawn "yt-dlp", ⟨0, "", ""⟩),
     (probeSpawn "ffmpeg", ⟨0, "", ""⟩),
     (⟨"yt-dlp", ["-f", "140", "URL4", "-o", "my_audio.m4a"]⟩, ⟨0, "", ""⟩),
     (⟨"yt-dlp", ["-f", "609", "URL4", "-o", "my_video.mp4"]⟩, ⟨0, "", ""⟩),
     (titleSpawn "URL4" "yt-dlp", ⟨0, "My Video.mp4", ""⟩),
     (ffmpegSpawn "My_Video", ⟨1, "", "muxing failed"⟩)]
  statExists := fun _ => false
  fetchOk := true
  fs0 := ["my_audio.m4a", "my_video.mp4"]

/-- Scenario for the exit-1 side of C4: the yt-dlp probe throws and the
provisioning fetch fails. -/
def envC4fail : Env where
  os := "linux"
  exec := execOfTable [(probeSpawn "ffmpeg", ⟨0, "", ""⟩)]
  statExists := fun _ => false
  fetchOk := false
  fs0 := []

/-- Scenario for C6: Windows host, yt-dlp installed, ffmpeg absent
(probe exits 1, `cat` and `ffmpeg` spawns throw). -/
def envC6 : Env where
  os := "windows"
  exec := execOfTable
    [(probeSpawn "yt-dlp", ⟨0, "", ""⟩),
     (probeSpawn "ffmpeg", ⟨1, "", "not recognized"⟩),
     (⟨"yt-dlp.exe", ["-f", "140", "URL6", "-o", "my_audio.m4a"]⟩, ⟨0, "", ""⟩),
     (⟨"yt-dlp.exe", ["-f", "609", "URL6", "-o", "my_video.mp4"]⟩, ⟨0, "", ""⟩),
     (titleSpawn "URL6" "yt-dlp.exe", ⟨0, "Great Talk.mp4", ""⟩)]
  statExists := fun _ => false
  fetchOk := true
  fs0 := ["my_audio.m4a", "my_video.mp4"]

/-- Scenario for C8, macOS: `cat /etc/os-release` exits non-zero, no
marker files, so the distro resolves to darwin; the brew-prefixed spawns
are answered successfully so the full invocation sequence is visible. -/
def envDarwin : Env where
  os := "darwin"
  exec := execOfTable
    [(⟨"cat", ["/etc/os-release"]⟩, ⟨1, "", "No such file or directory"⟩),
     (⟨"brew", ["brew", "update"]⟩, ⟨0, "Updated Homebrew.", ""⟩),
     (⟨"brew", ["brew", "install", "-y", "ffmpeg"]⟩, ⟨0, "installed", ""⟩)]
  statExists := fun _ => false
  fetchOk := true
  fs0 := []

/-- Scenario for C8, Debian-family Linux. -/
def envDebian : Env where
  os := "linux"
  exec := execOfTable
    [(⟨"cat", ["/etc/os-release"]⟩, ⟨0, "ID=ubuntu", ""⟩),
     (⟨"sudo", ["apt", "update"]⟩, ⟨0, "Reading package lists...", ""⟩),
     (⟨"sudo", ["apt", "install", "-y", "ffmpeg"]⟩, ⟨0, "done", ""⟩)]
  statExists := fun _ => false
  fetchOk := true
  fs0 := []

/-- Scenario for C8, RHEL-family Linux. -/
def envRhel : Env where
  os := "linux"
  exec := execOfTable
    [(⟨"cat", ["/etc/os-release"]⟩, ⟨0, "ID=fedora", ""⟩),
     (⟨"sudo", ["dnf", "check-update"]⟩, ⟨0, "Last metadata expiration check", ""⟩),
     (⟨"sudo", ["dnf", "install", "-y", "ffmpeg-free"]⟩, ⟨0, "done", ""⟩)]
  statExists := fun _ => false
  fetchOk := true
  fs0 := []

/-! ## Helper lemmas -/

lemma findDotRev_eq_none (l : List Char) (h : '.' ∉ l) : findDotRev l = none := by
  induction l with
  | nil => rfl
  | cons c cs ih =>
    have hc : c ≠ '.' := fun hh => h (by simp [hh])
    have h' : '.' ∉ cs := fun hm => h (List.mem_cons_of_mem _ hm)
    simp [findDotRev, hc, ih h']

lemma findDotRev_append (l1 l2 : List Char) (h : '.' ∉ l1) :
    findDotRev (l1 ++ '.' :: l2) = some l1.length := by
  induction l1 with
  | nil => simp [findDotRev]
  | cons c cs ih =>
    have hc : c ≠ '.' := fun hh => h (by simp [hh])
    have h' : '.' ∉ cs := fun hm => h (List.mem_cons_of_mem _ hm)
    simp [findDotRev, hc, ih h']

lemma stripExtChars_no_dot (cs : List Char) (h : '.' ∉ cs) :
    stripExtChars cs = cs := by
  unfold stripExtChars
  rw [findDotRev_eq_none cs.reverse (by simpa using h)]

lemma stripExtChars_strip (a b : List Char) (hb : b ≠ []) (hdot : '.' ∉ b) :
    stripExtChars (a ++ '.' :: b) = a := by
  unfold stripExtChars
  have hrev : (a ++ '.' :: b).reverse = b.reverse ++ '.' :: a.reverse := by
    simp
  rw [hrev, findDotRev_append b.reverse a.reverse (by simpa using hdot)]
  have hlen : b.reverse.length ≠ 0 := by simpa using hb
  dsimp only
  rw [if_neg hlen]
  have hsplit : b.reverse ++ '.' :: a.reverse = (b.reverse ++ ['.']) ++ a.reverse := by
    simp
  have hl : (b.reverse ++ ['.']).length = b.reverse.length + 1 := by simp
  rw [hsplit, ← hl, List.drop_left, List.reverse_reverse]

lemma listStartsWith_append (n t : List Char) :
    listStartsWith (n ++ t) n = true := by
  induction n with
  | nil => cases t <;> rfl
  | cons c cs ih => simp [listStartsWith, ih]

lemma listContainsSub_of_sw (l n : List Char) (h : listStartsWith l n = true) :
    listContainsSub l n = true := by
  cases l with
  | nil =>
    cases n with
    | nil => rfl
    | cons d ds => simp [listStartsWith] at h
  | cons c cs => simp [listContainsSub, h]

lemma substrContains_append_left (d x : String) :
    substrContains (d ++ x) d = true := by
  unfold substrContains
  rw [String.data_append]
  exact listContainsSub_of_sw _ _ (listStartsWith_append _ _)

lemma contains_eq_mem (fs : List String) (p : String) :
    fs.contains p = true ↔ p ∈ fs :=
  List.elem_iff

lemma mem_of_mem_removePath (fs : List String) (p q : String)
    (h : q ∈ removePath fs p) : q ∈ fs := by
  simp only [removePath, List.mem_filter] at h
  exact h.1

lemma not_mem_removePath_self (fs : List String) (p : String) :
    p ∉ removePath fs p := by
  intro h
  simp [removePath, List.mem_filter] at h

lemma cleanup_err (fs : List String)
    (h : ¬("my_video.mp4" ∈ fs ∧ "my_audio.m4a" ∈ fs)) :
    (cleanupTempFiles fs).2 = Except.error "NotFound" := by
  simp [cleanupTempFiles, h]

lemma cleanup_fst (fs : List String) :
    (cleanupTempFiles fs).1 =
      removePath (removePath fs "my_video.mp4") "my_audio.m4a" := by
  by_cases h : ("my_video.mp4" ∈ fs ∧ "my_audio.m4a" ∈ fs) <;>
    simp [cleanupTempFiles, h]

lemma cleanup_twice (fs : List String) :
    (cleanupTempFiles (cleanupTempFiles fs).1).2 = Except.error "NotFound" := by
  apply cleanup_err
  rintro ⟨hv, _⟩
  rw [cleanup_fst] at hv
  exact not_mem_removePath_self fs "my_video.mp4" (mem_of_mem_removePath _ _ _ hv)

lemma checkPackage_eval (env : Env) (p : String) (r : CmdResult)
    (h : env.exec (probeSpawn p) = some r) :
    checkPackageInstalled env p = ([probeSpawn p], r.code == 0) := by
  simp [checkPackageInstalled, h]

lemma runSpawn_audio (c u : String) :
    runSpawn c u AUDIO_ID "audio" "m4a" =
      Spawn.mk c ["-f", "140", u, "-o", "my_audio.m4a"] := by
  have h1 : toString AUDIO_ID = "140" := by decide
  have h2 : "my_" ++ "audio" ++ "." ++ "m4a" = "my_audio.m4a" := by decide
  simp [runSpawn, h1, h2]

lemma runSpawn_video (c u : String) :
    runSpawn c u VIDEO_ID "video" "mp4" =
      Spawn.mk c ["-f", "609", u, "-o", "my_video.mp4"] := by
  have h1 : toString VIDEO_ID = "609" := by decide
  have h2 : "my_" ++ "video" ++ "." ++ "mp4" = "my_video.mp4" := by decide
  simp [runSpawn, h1, h2]

lemma runYtDlp_audio_ok (env : Env) (u c : String) (r : CmdResult)
    (h : env.exec (Spawn.mk c ["-f", "140", u, "-o", "my_audio.m4a"]) = some r)
    (hc : r.code = 0) :
    runYtDlpCommand env u AUDIO_ID c =
      ([Spawn.mk c ["-f", "140", u, "-o", "my_audio.m4a"]],
       ["Downloading audio...", "Download completed successfully!"],
       Except.ok ()) := by
  have hcl : classifyFormat AUDIO_ID = Except.ok ("audio", "m4a") := by decide
  have hlog : "Downloading " ++ "audio" ++ "..." = "Downloading audio..." := by decide
  simp [runYtDlpCommand, hcl, runSpawn_audio, h, hc, hlog]

lemma runYtDlp_video_ok (env : Env) (u c : String) (r : CmdResult)
    (h : env.exec (Spawn.mk c ["-f", "609", u, "-o", "my_video.mp4"]) = some r)
    (hc : r.code = 0) :
    runYtDlpCommand env u VIDEO_ID c =
      ([Spawn.mk c ["-f", "609", u, "-o", "my_video.mp4"]],
       ["Downloading video...", "Download completed successfully!"],
       Except.ok ()) := by
  have hcl : classifyFormat VIDEO_ID = Except.ok ("video", "mp4") := by decide
  have hlog : "Downloading " ++ "video" ++ "..." = "Downloading video..." := by decide
  simp [runYtDlpCommand, hcl, runSpawn_video, h, hc, hlog]

lemma runYtDlp_video_fail (env : Env) (u c : String) (r : CmdResult)
    (h : env.exec (Spawn.mk c ["-f", "609", u, "-o", "my_video.mp4"]) = some r)
    (hc : r.code ≠ 0) :
    runYtDlpCommand env u VIDEO_ID c =
      ([Spawn.mk c ["-f", "609", u, "-o", "my_video.mp4"]],
       ["Downloading video...",
        "runYtDlpCommand(): An error occurred during download: ", r.stderr],
       Except.ok ()) := by
  have hcl : classifyFormat VIDEO_ID = Except.ok ("video", "mp4") := by decide
  have hlog : "Downloading " ++ "video" ++ "..." = "Downloading video..." := by decide
  simp [runYtDlpCommand, hcl, runSpawn_video, h, hc, hlog]

lemma merge_eval_fail (env : Env) (fs : List String) (u c : String)
    (rT rF : CmdResult)
    (hT : env.exec (titleSpawn u c) = some rT)
    (hF : env.exec (ffmpegSpawn (mergeTitleOf rT)) = some rF)
    (hFc : rF.code ≠ 0) :
    mergeAndCleanup env fs u c =
      ([titleSpawn u c, ffmpegSpawn (mergeTitleOf rT)], fs,
       Except.error ("FFmpeg process failed with code " ++ toString rF.code)) := by
  simp [mergeAndCleanup, hT, hF, hFc]

lemma merge_eval_ok (env : Env) (fs : List String) (u c : String)
    (rT rF : CmdResult)
    (hT : env.exec (titleSpawn u c) = some rT)
    (hF : env.exec (ffmpegSpawn (mergeTitleOf rT)) = some rF)
    (hFc : rF.code = 0) :
    mergeAndCleanup env fs u c =
      ([titleSpawn u c, ffmpegSpawn (mergeTitleOf rT)],
       (cleanupTempFiles fs).1, (cleanupTempFiles fs).2) := by
  simp [mergeAndCleanup, hT, hF, hFc]

lemma merge_eval_none (env : Env) (fs : List String) (u c : String)
    (rT : CmdResult)
    (hT : env.exec (titleSpawn u c) = some rT)
    (hF : env.exec (ffmpegSpawn (mergeTitleOf rT)) = none) :
    mergeAndCleanup env fs u c =
      ([titleSpawn u c, ffmpegSpawn (mergeTitleOf rT)], fs,
       Except.error "spawn failed") := by
  simp [mergeAndCleanup, hT, hF]

lemma installFfmpeg_windows (env : Env) (hOs : env.os = "windows")
    (hCat : env.exec (Spawn.mk "cat" ["/etc/os-release"]) = none) :
    installFfmpeg env =
      ([Spawn.mk "cat" ["/etc/os-release"]],
       ["Please install FFmpeg manually on Windows.",
        "Visit https://ffmpeg.org/download.html for instructions.",
        "Error during FFmpeg installation:"], false) := by
  have hGet : getUnixDistroType env = ([Spawn.mk "cat" ["/etc/os-release"]], "unknown") := by
    simp [getUnixDistroType, hCat]
  simp [installFfmpeg, hGet, hOs]

/-- Full evaluation of the first variant's `main` in the Linux scenario
where both tools probe as installed, the audio download succeeds, the
video download exits non-zero, and the subsequent ffmpeg merge also exits
non-zero (as it must, its video input being absent). -/
lemma main_eval_linux (env : Env) (url : String) (r1 r2 rA rV rT rF : CmdResult)
    (hOs : env.os = "linux")
    (h1 : env.exec (probeSpawn "yt-dlp") = some r1) (h1c : r1.code = 0)
    (h2 : env.exec (probeSpawn "ffmpeg") = some r2) (h2c : r2.code = 0)
    (hA : env.exec (Spawn.mk "yt-dlp" ["-f", "140", url, "-o", "my_audio.m4a"]) = some rA)
    (hAc : rA.code = 0)
    (hV : env.exec (Spawn.mk "yt-dlp" ["-f", "609", url, "-o", "my_video.mp4"]) = some rV)
    (hVc : rV.code ≠ 0)
    (hT : env.exec (titleSpawn url "yt-dlp") = some rT)
    (hF : env.exec (ffmpegSpawn (mergeTitleOf rT)) = some rF) (hFc : rF.code ≠ 0) :
    main env url =
      ⟨[probeSpawn "yt-dlp", probeSpawn "ffmpeg",
        Spawn.mk "yt-dlp" ["-f", "140", url, "-o", "my_audio.m4a"],
        Spawn.mk "yt-dlp" ["-f", "609", url, "-o", "my_video.mp4"],
        titleSpawn url "yt-dlp", ffmpegSpawn (mergeTitleOf rT)],
       ["Downloading audio...", "Download completed successfully!",
        "Downloading video...",
        "runYtDlpCommand(): An error occurred during download: ", rV.stderr],
       env.fs0, Except.ok ()⟩ := by
  have hcmd : getYtDlpCommand "linux" true = Except.ok "yt-dlp" := by decide
  simp [main, checkPackage_eval env "yt-dlp" r1 h1,
    checkPackage_eval env "ffmpeg" r2 h2, h1c, h2c, hOs, hcmd,
    runYtDlp_audio_ok env url "yt-dlp" rA hA hAc,
    runYtDlp_video_fail env url "yt-dlp" rV hV hVc,
    merge_eval_fail env env.fs0 url "yt-dlp" rT rF hT hF hFc]

/-- Full evaluation of the first variant's `main` in the Windows scenario
where yt-dlp probes as installed, ffmpeg does not, `cat` does not exist,
both downloads succeed and the ffmpeg spawn of the merge stage throws. -/
lemma main_eval_windows (env : Env) (url : String) (r1 r2 rA rV rT : CmdResult)
    (hOs : env.os = "windows")
    (h1 : env.exec (probeSpawn "yt-dlp") = some r1) (h1c : r1.code = 0)
    (h2 : env.exec (probeSpawn "ffmpeg") = some r2) (h2c : r2.code ≠ 0)
    (hCat : env.exec (Spawn.mk "cat" ["/etc/os-release"]) = none)
    (hA : env.exec (Spawn.mk "yt-dlp.exe" ["-f", "140", url, "-o", "my_audio.m4a"]) = some rA)
    (hAc : rA.code = 0)
    (hV : env.exec (Spawn.mk "yt-dlp.exe" ["-f", "609", url, "-o", "my_video.mp4"]) = some rV)
    (hVc : rV.code = 0)
    (hT : env.exec (titleSpawn url "yt-dlp.exe") = some rT)
    (hF : env.exec (ffmpegSpawn (mergeTitleOf rT)) = none) :
    main env url =
      ⟨[probeSpawn "yt-dlp", probeSpawn "ffmpeg",
        Spawn.mk "cat" ["/etc/os-release"],
        Spawn.mk "yt-dlp.exe" ["-f", "140", url, "-o", "my_audio.m4a"],
        Spawn.mk "yt-dlp.exe" ["-f", "609", url, "-o", "my_video.mp4"],
        titleSpawn url "yt-dlp.exe", ffmpegSpawn (mergeTitleOf rT)],
       ["Please install FFmpeg manually on Windows.",
        "Visit https://ffmpeg.org/download.html for instructions.",
        "Error during FFmpeg installation:",
        "Downloading audio...", "Download completed successfully!",
        "Downloading video...", "Download completed successfully!"],
       env.fs0, Except.ok ()⟩ := by
  have hcmd : getYtDlpCommand "windows" true = Except.ok "yt-dlp.exe" := by decide
  simp [main, checkPackage_eval env "yt-dlp" r1 h1,
    checkPackage_eval env "ffmpeg" r2 h2, h1c, h2c, hOs, hcmd,
    installFfmpeg_windows env hOs hCat,
    runYtDlp_audio_ok env url "yt-dlp.exe" rA hA hAc,
    runYtDlp_video_ok env url "yt-dlp.exe" rV hV hVc,
    merge_eval_none env env.fs0 url "yt-dlp.exe" rT hT hF]

lemma mergeAndCleanup_head (env : Env) (fs : List String) (url c : String) :
    (mergeAndCleanup env fs url c).1.head? = some (titleSpawn url c) := by
  rcases hT : env.exec (titleSpawn url c) with _ | rT
  · simp [mergeAndCleanup, hT]
  · rcases hF : env.exec (ffmpegSpawn (mergeTitleOf rT)) with _ | rF
    · simp [mergeAndCleanup, hT, hF]
    · by_cases h : rF.code = 0 <;> simp [mergeAndCleanup, hT, hF, h]

/-! ## Claim theorems -/

/-- C5: every identifier in the audio set classifies as (audio, m4a), every
identifier in the video set as (video, mp4), anything else fails with the
invalid-format error naming both valid identifiers, and the two sets are
disjoint. -/
theorem classify_format_spec :
    (∀ n, n ∈ audioIdSet → classifyFormat n = Except.ok ("audio", "m4a")) ∧
    (∀ n, n ∈ videoIdSet → classifyFormat n = Except.ok ("video", "mp4")) ∧
    (∀ n, n ∉ audioIdSet → n ∉ videoIdSet →
      classifyFormat n = Except.error invalidFormatMessage) ∧
    substrContains invalidFormatMessage "140 (audio)" = true ∧
    substrContains invalidFormatMessage "609 (video)" = true ∧
    (∀ n, n ∈ audioIdSet → n ∉ videoIdSet) := by
  refine ⟨?_, ?_, ?_, by decide, by decide, ?_⟩
  · intro n hn
    simp only [audioIdSet, List.mem_singleton] at hn
    subst hn
    decide
  · intro n hn
    simp only [videoIdSet, List.mem_singleton] at hn
    subst hn
    decide
  · intro n hA hV
    simp only [audioIdSet, AUDIO_ID, List.mem_singleton] at hA
    simp only [videoIdSet, VIDEO_ID, List.mem_singleton] at hV
    simp [classifyFormat, AUDIO_ID, VIDEO_ID, hA, hV]
  · intro n hn
    simp only [audioIdSet, List.mem_singleton] at hn
    subst hn
    decide

/-- Witness for C5 at the concrete identifiers 140, 609 and 361. -/
theorem classify_format_spec_witness :
    classifyFormat 140 = Except.ok ("audio", "m4a") ∧
    classifyFormat 609 = Except.ok ("video", "mp4") ∧
    classifyFormat 361 = Except.error invalidFormatMessage ∧
    (140 : Nat) ∉ videoIdSet :=
  ⟨classify_format_spec.1 140 (by decide),
   classify_format_spec.2.1 609 (by decide),
   classify_format_spec.2.2.1 361 (by decide) (by decide),
   classify_format_spec.2.2.2.2.2 140 (by decide)⟩

/-- C7: `processFilename` maps the documented example to
"some_text_goes_here"; on any input without a period it returns the whole
string with whitespace runs collapsed to underscores; and in general it
strips the extension at the last period boundary (any non-empty,
period-free suffix after a period is dropped together with that period)
before collapsing whitespace. -/
theorem processFilename_spec :
    processFilename "some text goes here.mp3" = "some_text_goes_here" ∧
    (∀ s : String, '.' ∉ s.data →
      processFilename s = String.mk (collapseWsAux false s.data)) ∧
    (∀ a b : List Char, b ≠ [] → '.' ∉ b →
      processFilename (String.mk (a ++ '.' :: b)) =
        String.mk (collapseWsAux false a)) := by
  refine ⟨by decide, ?_, ?_⟩
  · intro s h
    unfold processFilename
    rw [stripExtChars_no_dot s.data h]
  · intro a b hb hd
    unfold processFilename
    rw [show (String.mk (a ++ '.' :: b)).data = a ++ '.' :: b from rfl,
      stripExtChars_strip a b hb hd]

/-- Witness for C7: a period-free input and an explicit last-period split. -/
theorem processFilename_spec_witness :
    processFilename "no extension here" =
      String.mk (collapseWsAux false "no extension here".data) ∧
    processFilename (String.mk ("a b".data ++ '.' :: "mp3".data)) =
      String.mk (collapseWsAux false "a b".data) :=
  ⟨processFilename_spec.2.1 "no extension here" (by decide),
   processFilename_spec.2.2 "a b".data "mp3".data (by decide) (by decide)⟩

/-- C9: `updatePath` is idempotent (the membership test makes a second
application a no-op, so repeated calls extend the path at most once), and
when it does extend it prepends the working directory with ";" on Windows
and ":" on every other platform. -/
theorem updatePath_idempotent :
    (∀ os currentDir path,
      updatePath os currentDir (updatePath os currentDir path) =
        updatePath os currentDir path) ∧
    (∀ os currentDir path, substrContains path currentDir = false →
      updatePath os currentDir path = currentDir ++ pathSep os ++ path) ∧
    pathSep "windows" = ";" ∧
    (∀ os, os ≠ "windows" → pathSep os = ":") := by
  refine ⟨?_, ?_, rfl, ?_⟩
  · intro os d p
    by_cases h : substrContains p d = true
    · simp [updatePath, h]
    · have h' : substrContains p d = false := by simpa using h
      have hpre : substrContains (d ++ pathSep os ++ p) d = true := by
        rw [String.append_assoc]
        exact substrContains_append_left d (pathSep os ++ p)
      simp [updatePath, h', hpre]
  · intro os d p h
    simp [updatePath, h]
  · intro os h
    simp [pathSep, h]

/-- Witness for C9 at a concrete directory and path. -/
theorem updatePath_idempotent_witness :
    updatePath "linux" "/work" (updatePath "linux" "/work" "/usr/bin") =
      updatePath "linux" "/work" "/usr/bin" ∧
    updatePath "linux" "/work" "/usr/bin" = "/work" ++ pathSep "linux" ++ "/usr/bin" ∧
    pathSep "linux" = ":" :=
  ⟨updatePath_idempotent.1 "linux" "/work" "/usr/bin",
   updatePath_idempotent.2.1 "linux" "/work" "/usr/bin" (by decide),
   updatePath_idempotent.2.2.2 "linux" (by decide)⟩

/-- C10: the two variants call `mergeAndCleanup` with opposite argument
orders.  Variant 1 passes (url, ytDlpCommand), so the title derivation
spawns the tool with the URL as argument; variant 2 passes
(ytDlpCommand, url), so the title derivation spawns the source URL as the
executable with the tool command in the URL position, and whenever the two
strings differ the first spawned commands differ. -/
theorem merge_call_variants_differ :
    (∀ env fs url c, (mergeCallVariant1 env fs url c).1.head? =
      some (Spawn.mk c ["--print", "filename", url])) ∧
    (∀ env fs url c, (mergeCallVariant2 env fs url c).1.head? =
      some (Spawn.mk url ["--print", "filename", c])) ∧
    (∀ env fs url c, url ≠ c →
      (mergeCallVariant2 env fs url c).1.head? ≠
        (mergeCallVariant1 env fs url c).1.head?) := by
  refine ⟨?_, ?_, ?_⟩
  · intro env fs url c
    exact mergeAndCleanup_head env fs url c
  · intro env fs url c
    exact mergeAndCleanup_head env fs c url
  · intro env fs url c hne
    rw [mergeCallVariant1, mergeCallVariant2, mergeAndCleanup_head,
      mergeAndCleanup_head]
    simp only [titleSpawn, Option.some.injEq, Spawn.mk.injEq, ne_eq, not_and]
    intro h
    exact absurd h hne

/-- Witness for C10 at concrete distinct strings. -/
theorem merge_call_variants_differ_witness :
    (mergeCallVariant2 envC3 [] "https://youtu.be/x" "yt-dlp").1.head? ≠
      (mergeCallVariant1 envC3 [] "https://youtu.be/x" "yt-dlp").1.head? :=
  merge_call_variants_differ.2.2 envC3 [] "https://youtu.be/x" "yt-dlp" (by decide)

/-- C8 (code bug, evaluated): distro resolution works as claimed, and on
Linux the package manager is driven through sudo as claimed
(`sudo apt update; sudo apt install -y ffmpeg` and
`sudo dnf check-update; sudo dnf install -y ffmpeg-free`); but on macOS the
spawned commands are `brew brew update` and `brew brew install -y ffmpeg` —
the executable is brew with the package-manager name duplicated into the
argv — so the claimed refresh invocation `brew update` never occurs. -/
theorem darwin_package_manager_eval :
    (getUnixDistroType envDarwin).2 = "darwin" ∧
    (installFfmpeg envDarwin).1 =
      [⟨"cat", ["/etc/os-release"]⟩, ⟨"brew", ["brew", "update"]⟩,
       ⟨"brew", ["brew", "install", "-y", "ffmpeg"]⟩] ∧
    Spawn.mk "brew" ["update"] ∉ (installFfmpeg envDarwin).1 ∧
    (getUnixDistroType envDebian).2 = "debian" ∧
    (installFfmpeg envDebian).1 =
      [⟨"cat", ["/etc/os-release"]⟩, ⟨"sudo", ["apt", "update"]⟩,
       ⟨"sudo", ["apt", "install", "-y", "ffmpeg"]⟩] ∧
    (getUnixDistroType envRhel).2 = "rhel" ∧
    (installFfmpeg envRhel).1 =
      [⟨"cat", ["/etc/os-release"]⟩, ⟨"sudo", ["dnf", "check-update"]⟩,
       ⟨"sudo", ["dnf", "install", "-y", "ffmpeg-free"]⟩] := by
  decide

/-- C1 (amended): when a download invocation exits non-zero with stderr
containing "Requested format is not available", `runYtDlpCommand` merely
logs the error banner and the stderr text and resolves normally; no
listing-mode re-invocation ever appears in the run's trace, the pipeline
continues so that the transcoder IS invoked, and the process exits 0. -/
theorem format_unavailable_behavior (env : Env) (url : String)
    (r1 r2 rA rV rT rF : CmdResult)
    (hOs : env.os = "linux")
    (h1 : env.exec (probeSpawn "yt-dlp") = some r1) (h1c : r1.code = 0)
    (h2 : env.exec (probeSpawn "ffmpeg") = some r2) (h2c : r2.code = 0)
    (hA : env.exec (Spawn.mk "yt-dlp" ["-f", "140", url, "-o", "my_audio.m4a"]) = some rA)
    (hAc : rA.code = 0)
    (hV : env.exec (Spawn.mk "yt-dlp" ["-f", "609", url, "-o", "my_video.mp4"]) = some rV)
    (hVc : rV.code ≠ 0)
    (hT : env.exec (titleSpawn url "yt-dlp") = some rT)
    (hF : env.exec (ffmpegSpawn (mergeTitleOf rT)) = some rF) (hFc : rF.code ≠ 0)
    (hVmsg : substrContains rV.stderr "Requested format is not available" = true) :
    runYtDlpCommand env url VIDEO_ID "yt-dlp" =
      ([Spawn.mk "yt-dlp" ["-f", "609", url, "-o", "my_video.mp4"]],
       ["Downloading video...",
        "runYtDlpCommand(): An error occurred during download: ", rV.stderr],
       Except.ok ()) ∧
    (∀ a b, listingSpawn a b ∉ (main env url).trace) ∧
    rV.stderr ∈ (main env url).log ∧
    ffmpegSpawn (mergeTitleOf rT) ∈ (main env url).trace ∧
    mainExitCode env url = 0 := by
  have hm := main_eval_linux env url r1 r2 rA rV rT rF hOs h1 h1c h2 h2c hA hAc
    hV hVc hT hF hFc
  refine ⟨runYtDlp_video_fail env url "yt-dlp" rV hV hVc, ?_, ?_, ?_, ?_⟩
  · intro a b hmem
    rw [hm] at hmem
    have hl : (listingSpawn a b).args.length = 2 := rfl
    simp only [List.mem_cons, List.not_mem_nil, or_false] at hmem
    rcases hmem with h | h | h | h | h | h <;>
      (rw [h] at hl; simp [probeSpawn, titleSpawn, ffmpegSpawn] at hl)
  · rw [hm]; simp
  · rw [hm]; simp
  · simp [mainExitCode, hm]

/-- Witness for C1 (amended) at the concrete scenario envC1. -/
theorem format_unavailable_behavior_witness :
    listingSpawn "yt-dlp" "URL1" ∉ (main envC1 "URL1").trace ∧
    ffmpegSpawn "My_Video" ∈ (main envC1 "URL1").trace ∧
    mainExitCode envC1 "URL1" = 0 := by
  have h := format_unavailable_behavior envC1 "URL1"
    ⟨0, "", ""⟩ ⟨0, "", ""⟩ ⟨0, "", ""⟩
    ⟨1, "", "ERROR: Requested format is not available"⟩
    ⟨0, "My Video.mp4", ""⟩ ⟨1, "", "my_video.mp4: No such file or directory"⟩
    rfl (by decide) (by decide) (by decide) (by decide) (by decide) (by decide)
    (by decide) (by decide) (by decide) (by decide) (by decide) (by decide)
  have hmt : mergeTitleOf (⟨0, "My Video.mp4", ""⟩ : CmdResult) = "My_Video" := by
    decide
  exact ⟨h.2.1 "yt-dlp" "URL1", by rw [← hmt]; exact h.2.2.2.1, h.2.2.2.2⟩

/-- C2 (amended): a stream download that exits non-zero does not abort the
pipeline: `runYtDlpCommand` resolves normally, the merge stage still runs
(the ffmpeg spawn is in the trace), no temp-file cleanup is triggered on
this path (the filesystem is unchanged), and main resolves with exit
code 0. -/
theorem download_failure_continues_pipeline (env : Env) (url : String)
    (r1 r2 rA rV rT rF : CmdResult)
    (hOs : env.os = "linux")
    (h1 : env.exec (probeSpawn "yt-dlp") = some r1) (h1c : r1.code = 0)
    (h2 : env.exec (probeSpawn "ffmpeg") = some r2) (h2c : r2.code = 0)
    (hA : env.exec (Spawn.mk "yt-dlp" ["-f", "140", url, "-o", "my_audio.m4a"]) = some rA)
    (hAc : rA.code = 0)
    (hV : env.exec (Spawn.mk "yt-dlp" ["-f", "609", url, "-o", "my_video.mp4"]) = some rV)
    (hVc : rV.code ≠ 0)
    (hT : env.exec (titleSpawn url "yt-dlp") = some rT)
    (hF : env.exec (ffmpegSpawn (mergeTitleOf rT)) = some rF) (hFc : rF.code ≠ 0) :
    runYtDlpCommand env url VIDEO_ID "yt-dlp" =
      ([Spawn.mk "yt-dlp" ["-f", "609", url, "-o", "my_video.mp4"]],
       ["Downloading video...",
        "runYtDlpCommand(): An error occurred during download: ", rV.stderr],
       Except.ok ()) ∧
    ffmpegSpawn (mergeTitleOf rT) ∈ (main env url).trace ∧
    (main env url).fs = env.fs0 ∧
    (main env url).result = Except.ok () ∧
    mainExitCode env url = 0 := by
  have hm := main_eval_linux env url r1 r2 rA rV rT rF hOs h1 h1c h2 h2c hA hAc
    hV hVc hT hF hFc
  refine ⟨runYtDlp_video_fail env url "yt-dlp" rV hV hVc, ?_, ?_, ?_, ?_⟩
  · rw [hm]; simp
  · rw [hm]
  · rw [hm]
  · simp [mainExitCode, hm]

/-- Witness for C2 (amended) at the concrete scenario envC2. -/
theorem download_failure_continues_pipeline_witness :
    ffmpegSpawn "My_Video" ∈ (main envC2 "URL2").trace ∧
    (main envC2 "URL2").fs = envC2.fs0 ∧
    mainExitCode envC2 "URL2" = 0 := by
  have h := download_failure_continues_pipeline envC2 "URL2"
    ⟨0, "", ""⟩ ⟨0, "", ""⟩ ⟨0, "", ""⟩
    ⟨1, "", "ERROR: unable to download video data: timed out"⟩
    ⟨0, "My Video.mp4", ""⟩ ⟨1, "", "my_video.mp4: No such file or directory"⟩
    rfl (by decide) (by decide) (by decide) (by decide) (by decide) (by decide)
    (by decide) (by decide) (by decide) (by decide) (by decide)
  have hmt : mergeTitleOf (⟨0, "My Video.mp4", ""⟩ : CmdResult) = "My_Video" := by
    decide
  exact ⟨by rw [← hmt]; exact h.2.1, h.2.2.1, h.2.2.2.2⟩

/-- C3 (amended): the removal step always removes whatever exists of both
temp files, but instead of producing a report it rejects with NotFound
whenever either file is absent, and `mergeAndCleanup` rethrows that
rejection to its caller; in particular a second run on the same path set
always raises NotFound rather than benignly reporting it. -/
theorem cleanup_raises_on_absent_file :
    (∀ fs, ¬("my_video.mp4" ∈ fs ∧ "my_audio.m4a" ∈ fs) →
      (cleanupTempFiles fs).2 = Except.error "NotFound") ∧
    (∀ fs, (cleanupTempFiles fs).1 =
      removePath (removePath fs "my_video.mp4") "my_audio.m4a") ∧
    (∀ fs, (cleanupTempFiles (cleanupTempFiles fs).1).2 =
      Except.error "NotFound") ∧
    (∀ env fs url c rT rF,
      env.exec (titleSpawn url c) = some rT →
      env.exec (ffmpegSpawn (mergeTitleOf rT)) = some rF →
      rF.code = 0 →
      (mergeAndCleanup env fs url c).2.2 = (cleanupTempFiles fs).2 ∧
      (mergeAndCleanup env fs url c).2.1 = (cleanupTempFiles fs).1) := by
  refine ⟨cleanup_err, cleanup_fst, cleanup_twice, ?_⟩
  intro env fs url c rT rF hT hF hFc
  rw [merge_eval_ok env fs url c rT rF hT hF hFc]
  exact ⟨rfl, rfl⟩

/-- Witness for C3 (amended) at concrete path sets and the envC3 merge. -/
theorem cleanup_raises_on_absent_file_witness :
    (cleanupTempFiles ["my_audio.m4a"]).2 = Except.error "NotFound" ∧
    (cleanupTempFiles (cleanupTempFiles ["my_video.mp4", "my_audio.m4a"]).1).2 =
      Except.error "NotFound" ∧
    (mergeAndCleanup envC3 ["my_audio.m4a"] "URL3" "yt-dlp").2.2 =
      (cleanupTempFiles ["my_audio.m4a"]).2 := by
  have h := cleanup_raises_on_absent_file
  exact ⟨h.1 ["my_audio.m4a"] (by decide),
    h.2.2.1 ["my_video.mp4", "my_audio.m4a"],
    (h.2.2.2 envC3 ["my_audio.m4a"] "URL3" "yt-dlp" ⟨0, "t.mp4", ""⟩ ⟨0, "", ""⟩
      (by decide) (by decide) (by decide)).1⟩

/-- C4 (amended): when the yt-dlp probe succeeds (so no provisioning
throw can occur) the process exit code is 0 regardless of how the
download and merge stages fare — every failure inside the try block is
caught and only logged; the process exits 1 only when an error is thrown
before the try block, e.g. when the yt-dlp probe throws and the
provisioning fetch then fails.  No cleanup is attempted on either exit
path. -/
theorem exit_code_behavior :
    (∀ (env : Env) (url : String) (r1 : CmdResult), env.os = "linux" →
      env.exec (probeSpawn "yt-dlp") = some r1 → r1.code = 0 →
      mainExitCode env url = 0) ∧
    (∀ (env : Env) (url : String), env.os = "linux" →
      env.exec (probeSpawn "yt-dlp") = none → env.fetchOk = false →
      mainExitCode env url = 1) := by
  constructor
  · intro env url r1 hOs h1 h1c
    have hck1 := checkPackage_eval env "yt-dlp" r1 h1
    have hcmd : getYtDlpCommand "linux" true = Except.ok "yt-dlp" := by decide
    suffices hres : (main env url).result = Except.ok () by
      simp [mainExitCode, hres]
    rcases h2 : checkPackageInstalled env "ffmpeg" with ⟨t2x, b2⟩
    rcases ha : runYtDlpCommand env url AUDIO_ID "yt-dlp" with ⟨t4, log4, r4⟩
    rcases hv : runYtDlpCommand env url VIDEO_ID "yt-dlp" with ⟨t5, log5, r5⟩
    cases r4 <;> cases r5 <;>
      simp [main, hck1, h2, h1c, hOs, hcmd, ha, hv]
  · intro env url hOs h1 hFetch
    have hck1 : checkPackageInstalled env "yt-dlp" = ([probeSpawn "yt-dlp"], false) := by
      simp [checkPackageInstalled, h1]
    rcases h2 : checkPackageInstalled env "ffmpeg" with ⟨t2x, b2⟩
    have hcmd : getYtDlpCommand "linux" false = Except.ok "yt-dlp_linux" := by decide
    have hD : downloadYtDlp env = Except.error "Failed to download yt-dlp" := by
      unfold downloadYtDlp
      rw [hOs, hFetch]
      decide
    simp [mainExitCode, main, hck1, h2, hOs, hcmd, hD]

/-- Witness for C4 (amended): exit 0 with a failing merge in envC4, exit 1
for the pre-try provisioning failure in envC4fail. -/
theorem exit_code_behavior_witness :
    mainExitCode envC4 "URL4" = 0 ∧ mainExitCode envC4fail "URLX" = 1 :=
  ⟨exit_code_behavior.1 envC4 "URL4" ⟨0, "", ""⟩ rfl (by decide) (by decide),
   exit_code_behavior.2 envC4fail "URLX" rfl (by decide) (by decide)⟩

/-- C6 (amended): on a Windows host with the transcoder absent,
`installFfmpeg` prints the manual-install guidance and throws internally,
but its own catch swallows the error and it returns false; `main` ignores
that boolean, so tool resolution is not fatal and the pipeline proceeds to
both download stages, exiting 0. -/
theorem windows_ffmpeg_behavior (env : Env) (url : String)
    (r1 r2 rA rV rT : CmdResult)
    (hOs : env.os = "windows")
    (h1 : env.exec (probeSpawn "yt-dlp") = some r1) (h1c : r1.code = 0)
    (h2 : env.exec (probeSpawn "ffmpeg") = some r2) (h2c : r2.code ≠ 0)
    (hCat : env.exec (Spawn.mk "cat" ["/etc/os-release"]) = none)
    (hA : env.exec (Spawn.mk "yt-dlp.exe" ["-f", "140", url, "-o", "my_audio.m4a"]) = some rA)
    (hAc : rA.code = 0)
    (hV : env.exec (Spawn.mk "yt-dlp.exe" ["-f", "609", url, "-o", "my_video.mp4"]) = some rV)
    (hVc : rV.code = 0)
    (hT : env.exec (titleSpawn url "yt-dlp.exe") = some rT)
    (hF : env.exec (ffmpegSpawn (mergeTitleOf rT)) = none) :
    (installFfmpeg env).2.2 = false ∧
    "Please install FFmpeg manually on Windows." ∈ (main env url).log ∧
    "Visit https://ffmpeg.org/download.html for instructions." ∈ (main env url).log ∧
    Spawn.mk "yt-dlp.exe" ["-f", "140", url, "-o", "my_audio.m4a"] ∈
      (main env url).trace ∧
    Spawn.mk "yt-dlp.exe" ["-f", "609", url, "-o", "my_video.mp4"] ∈
      (main env url).trace ∧
    (main env url).result = Except.ok () ∧
    mainExitCode env url = 0 := by
  have hm := main_eval_windows env url r1 r2 rA rV rT hOs h1 h1c h2 h2c hCat
    hA hAc hV hVc hT hF
  have hI := installFfmpeg_windows env hOs hCat
  refine ⟨by rw [hI], ?_, ?_, ?_, ?_, ?_, ?_⟩
  · rw [hm]; simp
  · rw [hm]; simp
  · rw [hm]; simp
  · rw [hm]; simp
  · rw [hm]
  · simp [mainExitCode, hm]

/-- Witness for C6 (amended) at the concrete scenario envC6. -/
theorem windows_ffmpeg_behavior_witness :
    (installFfmpeg envC6).2.2 = false ∧
    "Please install FFmpeg manually on Windows." ∈ (main envC6 "URL6").log ∧
    Spawn.mk "yt-dlp.exe" ["-f", "140", "URL6", "-o", "my_audio.m4a"] ∈
      (main envC6 "URL6").trace ∧
    mainExitCode envC6 "URL6" = 0 := by
  have h := windows_ffmpeg_behavior envC6 "URL6"
    ⟨0, "", ""⟩ ⟨1, "", "not recognized"⟩ ⟨0, "", ""⟩ ⟨0, "", ""⟩
    ⟨0, "Great Talk.mp4", ""⟩
    rfl (by decide) (by decide) (by decide) (by decide) (by decide) (by decide)
    (by decide) (by decide) (by decide) (by decide) (by decide)
  exact ⟨h.1, h.2.1, h.2.2.2.1, h.2.2.2.2.2.2⟩

/-- C1 counterexample: in envC1 the video download exits 1 with stderr
containing "Requested format is not available", yet the full trace shows no
listing-mode re-invocation (no `-F` spawn), the transcoder IS invoked, and
the process exit code is 0 — refuting the claimed FormatUnavailable
handling. -/
theorem format_unavailable_claim_counterexample :
    envC1.exec (Spawn.mk "yt-dlp" ["-f", "609", "URL1", "-o", "my_video.mp4"]) =
      some ⟨1, "", "ERROR: Requested format is not available"⟩ ∧
    substrContains "ERROR: Requested format is not available"
      "Requested format is not available" = true ∧
    (main envC1 "URL1").trace =
      [probeSpawn "yt-dlp", probeSpawn "ffmpeg",
       Spawn.mk "yt-dlp" ["-f", "140", "URL1", "-o", "my_audio.m4a"],
       Spawn.mk "yt-dlp" ["-f", "609", "URL1", "-o", "my_video.mp4"],
       Spawn.mk "yt-dlp" ["--print", "filename", "URL1"],
       ffmpegSpawn "My_Video"] ∧
    listingSpawn "yt-dlp" "URL1" ∉ (main envC1 "URL1").trace ∧
    ffmpegSpawn "My_Video" ∈ (main envC1 "URL1").trace ∧
    mainExitCode envC1 "URL1" = 0 := by
  decide

/-- C2 counterexample: in envC2 the video download fails, yet the merge
stage is still invoked (the ffmpeg spawn is in the trace), the temp file
set is untouched (no cleanup is triggered on the failure path), and main
resolves normally — refuting the claimed short-circuit to cleanup. -/
theorem download_failure_claim_counterexample :
    envC2.exec (Spawn.mk "yt-dlp" ["-f", "609", "URL2", "-o", "my_video.mp4"]) =
      some ⟨1, "", "ERROR: unable to download video data: timed out"⟩ ∧
    ffmpegSpawn "My_Video" ∈ (main envC2 "URL2").trace ∧
    (main envC2 "URL2").fs = ["my_audio.m4a"] ∧
    (main envC2 "URL2").result = Except.ok () ∧
    mainExitCode envC2 "URL2" = 0 := by
  decide

/-- C3 counterexample: the removal step raises.  On the full path set the
first run succeeds and leaves an empty set, but re-running it (and any run
with a temp file absent) yields a NotFound rejection that
`mergeAndCleanup` rethrows — there is no Removed/NotFound/Errored report
and the operation is not benignly idempotent. -/
theorem cleanup_claim_counterexample :
    cleanupTempFiles ["my_video.mp4", "my_audio.m4a"] = ([], Except.ok ()) ∧
    cleanupTempFiles
        (cleanupTempFiles ["my_video.mp4", "my_audio.m4a"]).1 =
      ([], Except.error "NotFound") ∧
    (mergeAndCleanup envC3 ["my_audio.m4a"] "URL3" "yt-dlp").2.2 =
      Except.error "NotFound" := by
  decide

/-- C4 counterexample: in envC4 the merge fails (ffmpeg exits 1), a fatal
failure per the claim, yet main resolves and the process exit code is 0,
not 1. -/
theorem exit_code_claim_counterexample :
    envC4.exec (ffmpegSpawn "My_Video") = some ⟨1, "", "muxing failed"⟩ ∧
    (main envC4 "URL4").result = Except.ok () ∧
    mainExitCode envC4 "URL4" = 0 := by
  decide

/-- C6 counterexample: on the Windows host envC6 with the transcoder
absent, the guidance is printed but the failure is not fatal: the pipeline
proceeds to both download stages and main exits 0. -/
theorem windows_ffmpeg_claim_counterexample :
    (checkPackageInstalled envC6 "ffmpeg").2 = false ∧
    (installFfmpeg envC6).2.2 = false ∧
    "Please install FFmpeg manually on Windows." ∈ (main envC6 "URL6").log ∧
    Spawn.mk "yt-dlp.exe" ["-f", "140", "URL6", "-o", "my_audio.m4a"] ∈
      (main envC6 "URL6").trace ∧
    Spawn.mk "yt-dlp.exe" ["-f", "609", "URL6", "-o", "my_video.mp4"] ∈
      (main envC6 "URL6").trace ∧
    (main envC6 "URL6").result = Except.ok () ∧
    mainExitCode envC6 "URL6" = 0 := by
  decide

end YtDlpHq



